import Mathlib

/-! Shallow embedding of the Exoplanet-compilation data pipeline: the
canonical planet record, schema unification, enrichment with derived
columns, demo-data generation and file-output bookkeeping, translated from
demo_data_generator.py, exoplanet_data_sources.py and main.py.
Missing floating-point values (numpy NaN / absent columns) are modelled as
Option.none over ℚ; transcendental float operations (sqrt, sin, cos, pi,
fractional powers) and the numpy random draws are abstracted as explicit
function parameters, so every definition stays computable. -/

/-- Abstraction of the transcendental floating-point operations the source
uses (numpy sqrt, cos, sin, the constant pi, and fractional powers). -/
structure FloatOps where
  sqrt : ℚ → ℚ
  cos : ℚ → ℚ
  sin : ℚ → ℚ
  pi : ℚ
  rpow : ℚ → ℚ → ℚ

/-- Canonical planet record: one row of the unified schema built by
ExoplanetDataCollector.create_unified_schema, including the derived
columns added later by enrich_data (absent before enrichment). -/
@[ext]
structure Row where
  planet_name : String
  host_star : String
  discovery_method : String
  discovery_year : Option ℚ
  orbital_period_days : Option ℚ
  planet_radius_jupiter : Option ℚ
  planet_mass_jupiter : Option ℚ
  orbital_distance_au : Option ℚ
  eccentricity : Option ℚ
  equilibrium_temp_k : Option ℚ
  stellar_distance_pc : Option ℚ
  stellar_mass_solar : Option ℚ
  stellar_radius_solar : Option ℚ
  stellar_temp_k : Option ℚ
  ra_deg : Option ℚ
  dec_deg : Option ℚ
  data_source : String
  planet_radius_earth : Option ℚ := none
  planet_mass_earth : Option ℚ := none
  density_g_cm3 : Option ℚ := none
  planet_type : Option String := none
  hz_inner_au : Option ℚ := none
  hz_outer_au : Option ℚ := none
  in_habitable_zone : Option Bool := none
  x_pc : Option ℚ := none
  y_pc : Option ℚ := none
  z_pc : Option ℚ := none
  deriving DecidableEq

/-- A pandas DataFrame, modelled as its list of column names together with
its list of rows (a cell is only meaningful when its column is present). -/
@[ext]
structure Table where
  cols : List String
  rows : List Row
  deriving DecidableEq

/-- Column set of the unified DataFrame produced by create_unified_schema
(the keys of the per-row dictionaries, in order of first appearance). -/
def canonicalCols : List String :=
  ["planet_name", "host_star", "discovery_method", "discovery_year",
   "orbital_period_days", "planet_radius_jupiter", "planet_mass_jupiter",
   "orbital_distance_au", "eccentricity", "equilibrium_temp_k",
   "stellar_distance_pc", "stellar_mass_solar", "stellar_radius_solar",
   "stellar_temp_k", "ra_deg", "dec_deg", "data_source"]

/-- Planet-size classification from enrich_data (the nested function
classify_planet_type): thresholds on the Earth-radius column, with a
missing radius (pandas NaN) classified as Unknown. -/
def classify_planet_type (radius_earth : Option ℚ) : String :=
  match radius_earth with
  | none => "Unknown"
  | some x =>
    if x < 1.5 then "Rocky (Earth-like)"
    else if x < 2.0 then "Super-Earth"
    else if x < 6.0 then "Neptune-like"
    else "Jupiter-like"

/-- Density computation from enrich_data: numpy.where keeps the value only
where both mass and radius are positive (NaN comparisons are false, so a
missing input also yields NaN, here none). -/
def densityOf (ops : FloatOps) (massJ radJ : Option ℚ) : Option ℚ :=
  match massJ, radJ with
  | some m, some r =>
    if 0 < m ∧ 0 < r then
      some (m * ((1898 / 1000) * 10 ^ 27) /
        (((4 / 3 : ℚ) * ops.pi * r ^ 3) * ((14313 / 10000) * 10 ^ 27)))
    else none
  | _, _ => none

/-- Stellar luminosity in solar units, from enrich_data. -/
def hzLuminosity (sr st : ℚ) : ℚ := sr ^ 2 * (st / 5778) ^ 4

/-- Inner habitable-zone boundary column value (NaN inputs propagate). -/
def hzInnerOf (ops : FloatOps) (sr st : Option ℚ) : Option ℚ :=
  match sr, st with
  | some a, some b => some ((95 / 100) * ops.sqrt (hzLuminosity a b))
  | _, _ => none

/-- Outer habitable-zone boundary column value (NaN inputs propagate). -/
def hzOuterOf (ops : FloatOps) (sr st : Option ℚ) : Option ℚ :=
  match sr, st with
  | some a, some b => some ((137 / 100) * ops.sqrt (hzLuminosity a b))
  | _, _ => none

/-- The habitable-zone membership test from enrich_data: a pandas boolean
column; any NaN operand makes both comparisons false. -/
def inHzTest (d lo hi : Option ℚ) : Bool :=
  match d, lo, hi with
  | some dv, some lov, some hiv => decide (lov ≤ dv) && decide (dv ≤ hiv)
  | _, _, _ => false

/-- Cartesian x coordinate from enrich_data (needs both RA and Dec). -/
def xPcOf (ops : FloatOps) (dist : ℚ) (ra dec : Option ℚ) : Option ℚ :=
  match ra, dec with
  | some rav, some decv =>
    some (dist * ops.cos (decv * (ops.pi / 180)) * ops.cos (rav * (ops.pi / 180)))
  | _, _ => none

/-- Cartesian y coordinate from enrich_data (needs both RA and Dec). -/
def yPcOf (ops : FloatOps) (dist : ℚ) (ra dec : Option ℚ) : Option ℚ :=
  match ra, dec with
  | some rav, some decv =>
    some (dist * ops.cos (decv * (ops.pi / 180)) * ops.sin (rav * (ops.pi / 180)))
  | _, _ => none

/-- Step of enrich_data that assigns the planet_radius_earth column. -/
def rowRadiusEarth (b : Bool) (r : Row) : Row :=
  if b then
    { r with planet_radius_earth := r.planet_radius_jupiter.map (fun x => x * (11209 / 1000)) }
  else r

/-- Step of enrich_data that assigns the planet_mass_earth column. -/
def rowMassEarth (b : Bool) (r : Row) : Row :=
  if b then
    { r with planet_mass_earth := r.planet_mass_jupiter.map (fun x => x * (3178 / 10)) }
  else r

/-- Step of enrich_data that assigns the density_g_cm3 column. -/
def rowDensity (b : Bool) (ops : FloatOps) (r : Row) : Row :=
  if b then
    { r with density_g_cm3 := densityOf ops r.planet_mass_jupiter r.planet_radius_jupiter }
  else r

/-- Step of enrich_data that assigns the planet_type column (reads the
planet_radius_earth column as updated by the earlier step). -/
def rowType (b : Bool) (r : Row) : Row :=
  if b then { r with planet_type := some (classify_planet_type r.planet_radius_earth) }
  else r

/-- Step of enrich_data that assigns the two habitable-zone boundary columns. -/
def rowHz (b : Bool) (ops : FloatOps) (r : Row) : Row :=
  if b then
    { r with hz_inner_au := hzInnerOf ops r.stellar_radius_solar r.stellar_temp_k,
             hz_outer_au := hzOuterOf ops r.stellar_radius_solar r.stellar_temp_k }
  else r

/-- Step of enrich_data that assigns the in_habitable_zone column (reads
the hz columns as updated by the earlier step). -/
def rowInHz (b : Bool) (r : Row) : Row :=
  if b then
    { r with in_habitable_zone := some (inHzTest r.orbital_distance_au r.hz_inner_au r.hz_outer_au) }
  else r

/-- Step of enrich_data that assigns the cartesian coordinate columns; the
distance defaults to 100 parsecs when stellar_distance_pc is missing. -/
def rowXyz (b : Bool) (ops : FloatOps) (r : Row) : Row :=
  if b then
    { r with
      x_pc := xPcOf ops (r.stellar_distance_pc.getD 100) r.ra_deg r.dec_deg,
      y_pc := yPcOf ops (r.stellar_distance_pc.getD 100) r.ra_deg r.dec_deg,
      z_pc := r.dec_deg.map (fun d => (r.stellar_distance_pc.getD 100) * ops.sin (d * (ops.pi / 180))) }
  else r

/-- Per-row effect of enrich_data, as the sequence of column assignments the
source performs, each guarded by the corresponding column-presence flag. -/
def enrichRow (b1 b2 b3 b4 b5 b6 b7 : Bool) (ops : FloatOps) (r : Row) : Row :=
  rowXyz b7 ops (rowInHz b6 (rowHz b5 ops (rowType b4 (rowDensity b3 ops
    (rowMassEarth b2 (rowRadiusEarth b1 r))))))

/-- Append a column name to a DataFrame column list if it is not already
present (pandas column assignment adds a new column at the end). -/
def addCol (c : String) (cols : List String) : List String :=
  if c ∈ cols then cols else cols ++ [c]

/-- Column-presence test guarding the planet_radius_earth assignment. -/
def hasRJ (cols : List String) : Bool := decide ("planet_radius_jupiter" ∈ cols)

/-- Columns after the planet_radius_earth step. -/
def colsA (cols : List String) : List String :=
  if hasRJ cols then addCol "planet_radius_earth" cols else cols

/-- Column-presence test guarding the planet_mass_earth assignment
(evaluated on the columns as they stand after the radius step). -/
def hasMJ (cols : List String) : Bool := decide ("planet_mass_jupiter" ∈ colsA cols)

/-- Columns after the planet_mass_earth step. -/
def colsB (cols : List String) : List String :=
  if hasMJ cols then addCol "planet_mass_earth" (colsA cols) else colsA cols

/-- Column-presence test guarding the density assignment. -/
def hasDen (cols : List String) : Bool :=
  decide ("planet_mass_jupiter" ∈ colsB cols) && decide ("planet_radius_jupiter" ∈ colsB cols)

/-- Columns after the density step. -/
def colsC (cols : List String) : List String :=
  if hasDen cols then addCol "density_g_cm3" (colsB cols) else colsB cols

/-- Column-presence test guarding the planet_type assignment. -/
def hasTy (cols : List String) : Bool := decide ("planet_radius_earth" ∈ colsC cols)

/-- Columns after the planet_type step. -/
def colsD (cols : List String) : List String :=
  if hasTy cols then addCol "planet_type" (colsC cols) else colsC cols

/-- Column-presence test guarding the habitable-zone boundary assignment. -/
def hasHz (cols : List String) : Bool :=
  decide ("stellar_radius_solar" ∈ colsD cols) && decide ("stellar_temp_k" ∈ colsD cols)

/-- Columns after the habitable-zone boundary step. -/
def colsE (cols : List String) : List String :=
  if hasHz cols then addCol "hz_outer_au" (addCol "hz_inner_au" (colsD cols)) else colsD cols

/-- Column-presence test guarding the in_habitable_zone assignment. -/
def hasIn (cols : List String) : Bool :=
  decide ("orbital_distance_au" ∈ colsE cols) && decide ("hz_inner_au" ∈ colsE cols)

/-- Columns after the in_habitable_zone step. -/
def colsF (cols : List String) : List String :=
  if hasIn cols then addCol "in_habitable_zone" (colsE cols) else colsE cols

/-- Column-presence test guarding the cartesian coordinate assignment. -/
def hasXyz (cols : List String) : Bool :=
  decide ("ra_deg" ∈ colsF cols) && decide ("dec_deg" ∈ colsF cols)

/-- Columns after the cartesian coordinate step. -/
def colsG (cols : List String) : List String :=
  if hasXyz cols then
    addCol "z_pc" (addCol "y_pc" (addCol "x_pc" (colsF cols)))
  else colsF cols

/-- Column set after enriching a table with the canonical columns: the ten
derived columns are appended in assignment order. -/
def enrichedCols : List String :=
  canonicalCols ++ ["planet_radius_earth", "planet_mass_earth", "density_g_cm3",
    "planet_type", "hz_inner_au", "hz_outer_au", "in_habitable_zone",
    "x_pc", "y_pc", "z_pc"]

/-- Effect of enrich_data on a nonempty DataFrame: every column assignment
is guarded by the presence tests the source performs sequentially, and
each assignment writes a whole column at once. -/
def enrichTable (ops : FloatOps) (t : Table) : Table :=
  { cols := colsG t.cols,
    rows := t.rows.map (enrichRow (hasRJ t.cols) (hasMJ t.cols) (hasDen t.cols)
      (hasTy t.cols) (hasHz t.cols) (hasIn t.cols) (hasXyz t.cols) ops) }

/-- ExoplanetDataCollector.enrich_data: returns the combined table
unchanged when it is None or empty, otherwise adds the derived columns. -/
def enrich_data (ops : FloatOps) (combined : Option Table) : Option Table :=
  match combined with
  | none => none
  | some t => if t.rows.length = 0 then some t else some (enrichTable ops t)

/-- Raw row of the real NASA Exoplanet Archive table (pscomppars), with the
columns that create_unified_schema reads; a pandas row.get yields NaN
(here none) when the value is absent. -/
structure NasaRawRow where
  pl_name : Option String
  hostname : Option String
  discoverymethod : Option String
  disc_year : Option ℚ
  pl_orbper : Option ℚ
  pl_radj : Option ℚ
  pl_bmassj : Option ℚ
  pl_orbsmax : Option ℚ
  pl_orbeccen : Option ℚ
  pl_eqt : Option ℚ
  sy_dist : Option ℚ
  st_mass : Option ℚ
  st_rad : Option ℚ
  st_teff : Option ℚ
  ra : Option ℚ
  dec : Option ℚ
  deriving DecidableEq

/-- Raw row of the EU Exoplanet Catalogue CSV, with the columns that
create_unified_schema reads; hash_name stands for the possible leading
comment-style name column. -/
structure EuRawRow where
  name : Option String
  hash_name : Option String
  star_name : Option String
  detection_type : Option String
  discovered : Option ℚ
  orbital_period : Option ℚ
  radius : Option ℚ
  mass : Option ℚ
  semi_major_axis : Option ℚ
  eccentricity : Option ℚ
  temp_calculated : Option ℚ
  star_distance : Option ℚ
  star_mass : Option ℚ
  star_radius : Option ℚ
  star_teff : Option ℚ
  ra : Option ℚ
  dec : Option ℚ
  deriving DecidableEq

/-- The collector's nasa_data slot: create_unified_schema distinguishes
demo-format data (already in the canonical schema, detected by the
presence of a data_source column) from real archive data needing mapping. -/
inductive NasaData where
  | demo (rows : List Row)
  | archive (rows : List NasaRawRow)
  deriving DecidableEq

/-- Canonical-schema mapping of a real NASA archive row, as written in
create_unified_schema (string fields default to the empty string, numeric
fields to NaN, modelled as none). -/
def mapNasaRow (r : NasaRawRow) : Row :=
  { planet_name := r.pl_name.getD "",
    host_star := r.hostname.getD "",
    discovery_method := r.discoverymethod.getD "",
    discovery_year := r.disc_year,
    orbital_period_days := r.pl_orbper,
    planet_radius_jupiter := r.pl_radj,
    planet_mass_jupiter := r.pl_bmassj,
    orbital_distance_au := r.pl_orbsmax,
    eccentricity := r.pl_orbeccen,
    equilibrium_temp_k := r.pl_eqt,
    stellar_distance_pc := r.sy_dist,
    stellar_mass_solar := r.st_mass,
    stellar_radius_solar := r.st_rad,
    stellar_temp_k := r.st_teff,
    ra_deg := r.ra,
    dec_deg := r.dec,
    data_source := "NASA Exoplanet Archive" }

/-- Resolved planet name of an EU row: row.get of the name column, falling
back to the comment-style name column, falling back to the empty string. -/
def euName (r : EuRawRow) : String := r.name.getD (r.hash_name.getD "")

/-- Canonical-schema mapping of an EU catalogue row from
create_unified_schema. -/
def mapEuRow (r : EuRawRow) : Row :=
  { planet_name := euName r,
    host_star := r.star_name.getD "",
    discovery_method := r.detection_type.getD "",
    discovery_year := r.discovered,
    orbital_period_days := r.orbital_period,
    planet_radius_jupiter := r.radius,
    planet_mass_jupiter := r.mass,
    orbital_distance_au := r.semi_major_axis,
    eccentricity := r.eccentricity,
    equilibrium_temp_k := r.temp_calculated,
    stellar_distance_pc := r.star_distance,
    stellar_mass_solar := r.star_mass,
    stellar_radius_solar := r.star_radius,
    stellar_temp_k := r.star_teff,
    ra_deg := r.ra,
    dec_deg := r.dec,
    data_source := "EU Exoplanet Catalogue" }

/-- One iteration of the EU loop in create_unified_schema: the row is
appended only if no already-accumulated row carries the same resolved
planet name (the only deduplication the source performs). -/
def addEuRow (acc : List Row) (r : EuRawRow) : List Row :=
  if acc.any (fun p => p.planet_name == euName r) then acc else acc ++ [mapEuRow r]

/-- NASA part of create_unified_schema: demo rows are appended as-is and
archive rows are mapped; both unconditionally, with no duplicate check. -/
def nasaContribution (nasa : Option NasaData) : List Row :=
  match nasa with
  | none => []
  | some (NasaData.demo rows) => if rows.length > 0 then rows else []
  | some (NasaData.archive rows) => if rows.length > 0 then rows.map mapNasaRow else []

/-- ExoplanetDataCollector.create_unified_schema: NASA/demo rows first, then
EU rows filtered by the accumulated-name check; the resulting DataFrame has
the canonical columns exactly when some row was accumulated. -/
def create_unified_schema (nasa : Option NasaData) (eu : Option (List EuRawRow)) : Table :=
  let u1 := nasaContribution nasa
  let u2 :=
    match eu with
    | none => u1
    | some rs => if rs.length > 0 then rs.foldl addEuRow u1 else u1
  { cols := if u2.isEmpty then [] else canonicalCols, rows := u2 }

/-- Abstraction of the numpy random draws consumed by
generate_demo_data for the i-th random planet. -/
structure DemoRng where
  methodIdx : ℕ → ℕ
  year : ℕ → ℚ
  radius_jup : ℕ → ℚ
  mass_jup : ℕ → ℚ
  orbital_period : ℕ → ℚ
  stellar_mass : ℕ → ℚ
  stellar_distance : ℕ → ℚ
  ecc : ℕ → ℚ
  ra : ℕ → ℚ
  dec : ℕ → ℚ

/-- Detection methods generate_demo_data samples from. -/
def detectionMethods : List String :=
  ["Transit", "Radial Velocity", "Direct Imaging", "Microlensing",
   "Transit Timing Variations"]

/-- Zero-padded three-digit formatting used for demo planet names. -/
def pad3 (n : ℕ) : String :=
  let s := toString n
  if s.length < 3 then String.mk (List.replicate (3 - s.length) '0') ++ s else s

/-- The i-th randomly generated planet of generate_demo_data (i counting
from 0); derived draws follow the source formulas, with fractional powers
through the abstract rpow. -/
def randomPlanet (ops : FloatOps) (rng : DemoRng) (i : ℕ) : Row :=
  let orbital_period := rng.orbital_period i
  let orbital_distance := ops.rpow (orbital_period / (36525 / 100)) (2 / 3)
  let stellar_mass := rng.stellar_mass i
  let stellar_radius := ops.rpow stellar_mass (8 / 10)
  let stellar_temp := 5778 * ops.rpow stellar_mass (5 / 10)
  let stellar_luminosity := stellar_radius ^ 2 * (stellar_temp / 5778) ^ 4
  let eq_temp := 279 * ops.rpow stellar_luminosity (25 / 100) / ops.rpow orbital_distance (5 / 10)
  { planet_name := "Demo Planet " ++ pad3 (i + 1),
    host_star := "Demo Star " ++ pad3 (i + 1),
    discovery_method := detectionMethods.getD (rng.methodIdx i % 5) "Transit",
    discovery_year := some (rng.year i),
    orbital_period_days := some orbital_period,
    planet_radius_jupiter := some (rng.radius_jup i),
    planet_mass_jupiter := some (rng.mass_jup i),
    orbital_distance_au := some orbital_distance,
    eccentricity := some (rng.ecc i),
    equilibrium_temp_k := some eq_temp,
    stellar_distance_pc := some (rng.stellar_distance i),
    stellar_mass_solar := some stellar_mass,
    stellar_radius_solar := some stellar_radius,
    stellar_temp_k := some stellar_temp,
    ra_deg := some (rng.ra i),
    dec_deg := some (rng.dec i),
    data_source := "Demo Data" }

/-- The five hard-coded famous planets of generate_demo_data. -/
def famousPlanets : List Row :=
  [{ planet_name := "Proxima Centauri b",
     host_star := "Proxima Centauri",
     discovery_method := "Radial Velocity",
     discovery_year := some 2016,
     orbital_period_days := some (11186 / 1000),
     planet_radius_jupiter := some (99 / 1000),
     planet_mass_jupiter := some (4 / 1000),
     orbital_distance_au := some (485 / 10000),
     eccentricity := some (2 / 100),
     equilibrium_temp_k := some 234,
     stellar_distance_pc := some (13 / 10),
     stellar_mass_solar := some (12 / 100),
     stellar_radius_solar := some (154 / 1000),
     stellar_temp_k := some 3042,
     ra_deg := some (2174 / 10),
     dec_deg := some (-627 / 10),
     data_source := "Demo Data" },
   { planet_name := "TRAPPIST-1e",
     host_star := "TRAPPIST-1",
     discovery_method := "Transit",
     discovery_year := some 2017,
     orbital_period_days := some (61 / 10),
     planet_radius_jupiter := some (83 / 1000),
     planet_mass_jupiter := some (2 / 1000),
     orbital_distance_au := some (28 / 1000),
     eccentricity := some 0,
     equilibrium_temp_k := some 246,
     stellar_distance_pc := some (125 / 10),
     stellar_mass_solar := some (89 / 1000),
     stellar_radius_solar := some (121 / 1000),
     stellar_temp_k := some 2566,
     ra_deg := some (3466 / 10),
     dec_deg := some (-5),
     data_source := "Demo Data" },
   { planet_name := "Kepler-452b",
     host_star := "Kepler-452",
     discovery_method := "Transit",
     discovery_year := some 2015,
     orbital_period_days := some (3848 / 10),
     planet_radius_jupiter := some (142 / 1000),
     planet_mass_jupiter := some (16 / 1000),
     orbital_distance_au := some (1046 / 1000),
     eccentricity := some 0,
     equilibrium_temp_k := some 265,
     stellar_distance_pc := some 430,
     stellar_mass_solar := some (104 / 100),
     stellar_radius_solar := some (111 / 100),
     stellar_temp_k := some 5757,
     ra_deg := some (2929 / 10),
     dec_deg := some (443 / 10),
     data_source := "Demo Data" },
   { planet_name := "51 Pegasi b",
     host_star := "51 Pegasi",
     discovery_method := "Radial Velocity",
     discovery_year := some 1995,
     orbital_period_days := some (423 / 100),
     planet_radius_jupiter := some (12 / 10),
     planet_mass_jupiter := some (47 / 100),
     orbital_distance_au := some (527 / 10000),
     eccentricity := some (13 / 1000),
     equilibrium_temp_k := some 1284,
     stellar_distance_pc := some (154 / 10),
     stellar_mass_solar := some (111 / 100),
     stellar_radius_solar := some (124 / 100),
     stellar_temp_k := some 5793,
     ra_deg := some (3444 / 10),
     dec_deg := some (208 / 10),
     data_source := "Demo Data" },
   { planet_name := "HD 189733 b",
     host_star := "HD 189733",
     discovery_method := "Transit",
     discovery_year := some 2005,
     orbital_period_days := some (222 / 100),
     planet_radius_jupiter := some (114 / 100),
     planet_mass_jupiter := some (113 / 100),
     orbital_distance_au := some (31 / 1000),
     eccentricity := some 0,
     equilibrium_temp_k := some 1201,
     stellar_distance_pc := some (198 / 10),
     stellar_mass_solar := some (82 / 100),
     stellar_radius_solar := some (76 / 100),
     stellar_temp_k := some 4875,
     ra_deg := some (3002 / 10),
     dec_deg := some (227 / 10),
     data_source := "Demo Data" }]

/-- generate_demo_data from demo_data_generator.py: the five famous planets
followed by range(num_planets - 5) random planets (an empty range when the
request is smaller than the famous list, as in Python). -/
def generate_demo_data (ops : FloatOps) (rng : DemoRng) (num_planets : ℕ) : List Row :=
  famousPlanets ++ (List.range (num_planets - famousPlanets.length)).map (randomPlanet ops rng)

/-- Left-to-right non-overlapping replacement of ".csv" by ".json" over a
character list, with explicit fuel (one unit per consumed character); this
is the semantics of the Python str.replace call in save_data. -/
def replaceCsvJsonAux : ℕ → List Char → List Char
  | 0, s => s
  | _ + 1, [] => []
  | fuel + 1, c :: cs =>
    if c = '.' ∧ cs.take 3 = ['c', 's', 'v'] then
      '.' :: 'j' :: 's' :: 'o' :: 'n' :: replaceCsvJsonAux fuel (cs.drop 3)
    else c :: replaceCsvJsonAux fuel cs

/-- Replacement of every occurrence of ".csv" by ".json" in a string, the
Python str.replace semantics used to derive the JSON output path. -/
def jsonFilename (filename : String) : String :=
  String.mk (replaceCsvJsonAux filename.data.length filename.data)

/-- Serialization format of a persisted output file. -/
inductive FileFormat where
  | csv
  | json
  deriving DecidableEq

/-- A file written by save_data: its path, its format, and the in-memory
table it serializes. -/
structure SavedFile where
  path : String
  format : FileFormat
  content : Table
  deriving DecidableEq

/-- ExoplanetDataCollector.save_data: writes nothing when the combined
table is None, otherwise writes the CSV file at the given filename and the
JSON file at the filename with ".csv" replaced by ".json", both from the
same table. -/
def save_data (combined : Option Table) (filename : String) : List SavedFile :=
  match combined with
  | none => []
  | some t =>
    [{ path := filename, format := FileFormat.csv, content := t },
     { path := jsonFilename filename, format := FileFormat.json, content := t }]

/-- collect_data from main.py: fetch NASA, fetch EU (either may fail to
none), then unify and enrich; no demo-data fallback is ever invoked. -/
def collect_data (ops : FloatOps) (nasa : Option NasaData) (eu : Option (List EuRawRow)) : Option Table :=
  enrich_data ops (some (create_unified_schema nasa eu))

/-- Whether a fetch result counts as a success in the main function of
exoplanet_data_sources.py (non-None and nonempty). -/
def fetchSuccess (nasa : Option NasaData) (eu : Option (List EuRawRow)) : Bool :=
  (match nasa with
   | some (NasaData.demo rows) => decide (rows.length > 0)
   | some (NasaData.archive rows) => decide (rows.length > 0)
   | none => false) ||
  (match eu with
   | some rs => decide (rs.length > 0)
   | none => false)

/-- The main function of exoplanet_data_sources.py: when both fetches fail,
load_demo_data replaces the NASA slot with 100 generated demo planets
before unification and enrichment. -/
def sources_main (ops : FloatOps) (rng : DemoRng) (nasa : Option NasaData)
    (eu : Option (List EuRawRow)) : Option Table :=
  let nasa2 :=
    if fetchSuccess nasa eu then nasa
    else some (NasaData.demo (generate_demo_data ops rng 100))
  enrich_data ops (some (create_unified_schema nasa2 eu))

/-- Trivial instantiation of the abstract float operations, used to
evaluate the embedding on concrete inputs. -/
def constOps : FloatOps :=
  { sqrt := fun _ => 0, cos := fun _ => 0, sin := fun _ => 0,
    pi := 314159 / 100000, rpow := fun _ _ => 0 }

/-- Trivial instantiation of the abstract random draws, used to evaluate
the embedding on concrete inputs. -/
def constRng : DemoRng :=
  { methodIdx := fun _ => 0, year := fun _ => 2000, radius_jup := fun _ => 1,
    mass_jup := fun _ => 1, orbital_period := fun _ => 10,
    stellar_mass := fun _ => 1, stellar_distance := fun _ => 10,
    ecc := fun _ => 0, ra := fun _ => 0, dec := fun _ => 0 }

/-- A concrete canonical row used for concrete evaluations. -/
def sampleRow : Row :=
  { planet_name := "X",
    host_star := "S",
    discovery_method := "Transit",
    discovery_year := some 2020,
    orbital_period_days := some 10,
    planet_radius_jupiter := some 1,
    planet_mass_jupiter := some 1,
    orbital_distance_au := some 1,
    eccentricity := some 0,
    equilibrium_temp_k := some 300,
    stellar_distance_pc := some 10,
    stellar_mass_solar := some 1,
    stellar_radius_solar := some 1,
    stellar_temp_k := some 5778,
    ra_deg := some 0,
    dec_deg := some 0,
    data_source := "Demo Data" }

/-- A concrete EU raw row used for concrete evaluations. -/
def sampleEuRow : EuRawRow :=
  { name := some "Y",
    hash_name := none,
    star_name := some "T",
    detection_type := some "Transit",
    discovered := some 2010,
    orbital_period := some 4,
    radius := some 1,
    mass := some 1,
    semi_major_axis := some (5 / 100),
    eccentricity := some 0,
    temp_calculated := some 1000,
    star_distance := some 20,
    star_mass := some 1,
    star_radius := some 1,
    star_teff := some 5778,
    ra := some 10,
    dec := some 10 }

/-- The empty DataFrame (no columns, no rows). -/
def emptyTable : Table := { cols := [], rows := [] }


/-- Membership in addCol is membership in the old columns or equality with
the added column. -/
theorem mem_addCol {a c : String} {l : List String} : a ∈ addCol c l ↔ a = c ∨ a ∈ l := by
  unfold addCol
  split_ifs with h
  · constructor
    · exact fun ha => Or.inr ha
    · rintro (rfl | ha)
      · exact h
      · exact ha
  · simp [List.mem_append, or_comm]

/-- addCol is transparent for a different name. -/
theorem mem_addCol_of_ne {a c : String} {l : List String} (h : a ≠ c) :
    a ∈ addCol c l ↔ a ∈ l := by
  rw [mem_addCol]
  simp [h]

theorem hasRJ_canonical : hasRJ canonicalCols = true := by decide

theorem hasMJ_canonical : hasMJ canonicalCols = true := by decide

theorem hasDen_canonical : hasDen canonicalCols = true := by decide

theorem hasTy_canonical : hasTy canonicalCols = true := by decide

theorem hasHz_canonical : hasHz canonicalCols = true := by decide

theorem hasIn_canonical : hasIn canonicalCols = true := by decide

theorem hasXyz_canonical : hasXyz canonicalCols = true := by decide

theorem colsG_canonical : colsG canonicalCols = enrichedCols := by decide

theorem hasRJ_enriched : hasRJ enrichedCols = true := by decide

theorem hasMJ_enriched : hasMJ enrichedCols = true := by decide

theorem hasDen_enriched : hasDen enrichedCols = true := by decide

theorem hasTy_enriched : hasTy enrichedCols = true := by decide

theorem hasHz_enriched : hasHz enrichedCols = true := by decide

theorem hasIn_enriched : hasIn enrichedCols = true := by decide

theorem hasXyz_enriched : hasXyz enrichedCols = true := by decide

theorem colsG_enriched : colsG enrichedCols = enrichedCols := by decide

/-- Enriching a table with exactly the canonical unified columns activates
every derived-column assignment. -/
theorem enrichTable_canonical (ops : FloatOps) (rows : List Row) :
    enrichTable ops { cols := canonicalCols, rows := rows } =
      { cols := enrichedCols,
        rows := rows.map (enrichRow true true true true true true true ops) } := by
  simp only [enrichTable, hasRJ_canonical, hasMJ_canonical, hasDen_canonical,
    hasTy_canonical, hasHz_canonical, hasIn_canonical, hasXyz_canonical,
    colsG_canonical]

/-- Enriching an already-enriched column set changes no column names and
again activates every assignment. -/
theorem enrichTable_enriched (ops : FloatOps) (rows : List Row) :
    enrichTable ops { cols := enrichedCols, rows := rows } =
      { cols := enrichedCols,
        rows := rows.map (enrichRow true true true true true true true ops) } := by
  simp only [enrichTable, hasRJ_enriched, hasMJ_enriched, hasDen_enriched,
    hasTy_enriched, hasHz_enriched, hasIn_enriched, hasXyz_enriched,
    colsG_enriched]

/-- Applying the full per-row enrichment twice gives the same row as
applying it once: every derived field is recomputed from fields the
enrichment itself never modifies. -/
theorem enrichRow_idem (ops : FloatOps) (r : Row) :
    enrichRow true true true true true true true ops
      (enrichRow true true true true true true true ops r) =
      enrichRow true true true true true true true ops r := by
  simp [enrichRow, rowRadiusEarth, rowMassEarth, rowDensity, rowType, rowHz,
    rowInHz, rowXyz]

/-- The per-row enrichment never changes the data_source tag. -/
theorem enrichRowT_data_source (ops : FloatOps) (r : Row) :
    (enrichRow true true true true true true true ops r).data_source = r.data_source := by
  simp [enrichRow, rowRadiusEarth, rowMassEarth, rowDensity, rowType, rowHz,
    rowInHz, rowXyz]

/-- The unified DataFrame has the canonical columns exactly when it has
at least one row. -/
theorem unified_cols (nasa : Option NasaData) (eu : Option (List EuRawRow)) :
    (create_unified_schema nasa eu).cols =
      if (create_unified_schema nasa eu).rows.isEmpty then [] else canonicalCols := rfl

/-- Shape of enrich_data on a unified table: identity on the empty table,
full enrichment with the canonical column flags otherwise. -/
theorem enrich_unified_eq (ops : FloatOps) (nasa : Option NasaData)
    (eu : Option (List EuRawRow)) :
    enrich_data ops (some (create_unified_schema nasa eu)) =
      if (create_unified_schema nasa eu).rows.length = 0
      then some (create_unified_schema nasa eu)
      else some { cols := enrichedCols,
                  rows := (create_unified_schema nasa eu).rows.map
                    (enrichRow true true true true true true true ops) } := by
  by_cases h : (create_unified_schema nasa eu).rows.length = 0
  · simp [enrich_data, h]
  · have hne : ¬ (create_unified_schema nasa eu).rows.isEmpty := by
      rcases hrows : (create_unified_schema nasa eu).rows with _ | ⟨a, l⟩
      · rw [hrows] at h
        simp at h
      · simp
    have hcols : (create_unified_schema nasa eu).cols = canonicalCols := by
      rw [unified_cols, if_neg]
      exact fun hc => hne (by rw [hc])
    have heta : create_unified_schema nasa eu =
        { cols := canonicalCols, rows := (create_unified_schema nasa eu).rows } := by
      ext1
      · exact hcols
      · rfl
    simp only [enrich_data, h, if_neg h]
    rw [heta, enrichTable_canonical]

/-- Row count of the generated demo table: the five famous planets plus
one planet per element of range (n - 5). -/
theorem generate_demo_data_length (ops : FloatOps) (rng : DemoRng) (n : ℕ) :
    (generate_demo_data ops rng n).length = max n 5 := by
  simp only [generate_demo_data, List.length_append, List.length_map,
    List.length_range, famousPlanets, List.length_cons, List.length_nil]
  omega

/-- Every generated demo row carries a radius value. -/
theorem generate_demo_data_radius_isSome (ops : FloatOps) (rng : DemoRng) (n : ℕ) :
    ∀ r ∈ generate_demo_data ops rng n, r.planet_radius_jupiter.isSome := by
  intro r hr
  rw [generate_demo_data, List.mem_append] at hr
  rcases hr with hf | hrand
  · simp only [famousPlanets, List.mem_cons, List.not_mem_nil, or_false] at hf
    rcases hf with rfl | rfl | rfl | rfl | rfl <;> rfl
  · obtain ⟨i, _, rfl⟩ := List.mem_map.mp hrand
    rfl

/-- Every generated demo row is tagged with the demo source label. -/
theorem generate_demo_data_sources (ops : FloatOps) (rng : DemoRng) (n : ℕ) :
    (generate_demo_data ops rng n).map Row.data_source =
      List.replicate (max n 5) "Demo Data" := by
  rw [generate_demo_data, List.map_append, List.map_map]
  have h1 : famousPlanets.map Row.data_source = List.replicate 5 "Demo Data" := by decide
  have h2 : (List.range (n - famousPlanets.length)).map (Row.data_source ∘ randomPlanet ops rng) =
      List.replicate (n - 5) "Demo Data" := by
    have : Row.data_source ∘ randomPlanet ops rng = fun _ => "Demo Data" := by
      funext i
      rfl
    rw [this, List.map_const', List.length_range]
    simp [famousPlanets]
  rw [h1, h2, ← List.replicate_add]
  congr 1
  omega

/-- The mapped EU row carries the resolved EU planet name. -/
theorem mapEuRow_name (r : EuRawRow) : (mapEuRow r).planet_name = euName r := rfl

/-- One EU iteration preserves the no-duplicate-names invariant: a row is
appended only after the name check against the accumulated rows. -/
theorem addEuRow_nodup (acc : List Row) (r : EuRawRow)
    (h : (acc.map Row.planet_name).Nodup) :
    ((addEuRow acc r).map Row.planet_name).Nodup := by
  unfold addEuRow
  split_ifs with hany
  · exact h
  · rw [List.map_append]
    refine List.Nodup.append h (by simp) ?_
    intro a ha hb
    simp only [List.map_cons, List.map_nil, List.mem_singleton, mapEuRow_name] at hb
    rw [List.any_eq_true] at hany
    obtain ⟨p, hp, hpname⟩ := List.mem_map.mp ha
    exact hany ⟨p, hp, by rw [beq_iff_eq, hpname, hb]⟩

/-- One EU iteration grows the accumulator by at most one row. -/
theorem addEuRow_length (acc : List Row) (r : EuRawRow) :
    (addEuRow acc r).length ≤ acc.length + 1 := by
  unfold addEuRow
  split_ifs
  · omega
  · rw [List.length_append]
    simp

/-- The whole EU loop preserves the no-duplicate-names invariant. -/
theorem euFold_nodup : ∀ (rs : List EuRawRow) (acc : List Row),
    (acc.map Row.planet_name).Nodup → (((rs.foldl addEuRow acc).map Row.planet_name).Nodup)
  | [], _, h => h
  | r :: rs, acc, h => euFold_nodup rs (addEuRow acc r) (addEuRow_nodup acc r h)

/-- The whole EU loop appends at most one row per EU input row. -/
theorem euFold_length : ∀ (rs : List EuRawRow) (acc : List Row),
    (rs.foldl addEuRow acc).length ≤ acc.length + rs.length
  | [], acc => by simp
  | r :: rs, acc => by
    have h1 := euFold_length rs (addEuRow acc r)
    have h2 := addEuRow_length acc r
    simp only [List.foldl_cons, List.length_cons]
    omega

/-- A conditional addCol is transparent for a different name. -/
theorem mem_ite_addCol {a c : String} {b : Bool} {l : List String} (h : a ≠ c) :
    (a ∈ if b then addCol c l else l) ↔ a ∈ l := by
  cases b
  · simp
  · simpa using mem_addCol_of_ne h

/-- Membership of the added name in a conditional addCol. -/
theorem mem_ite_addCol_self {c : String} {b : Bool} {l : List String} :
    (c ∈ if b then addCol c l else l) ↔ b = true ∨ c ∈ l := by
  cases b <;> simp [mem_addCol]

theorem mem_colsA_of_ne {a : String} {cols : List String}
    (h : a ≠ "planet_radius_earth") : a ∈ colsA cols ↔ a ∈ cols := by
  unfold colsA
  exact mem_ite_addCol h

theorem mem_colsA_self {cols : List String} :
    "planet_radius_earth" ∈ colsA cols ↔ hasRJ cols = true ∨ "planet_radius_earth" ∈ cols := by
  unfold colsA
  exact mem_ite_addCol_self

theorem mem_colsB_of_ne {a : String} {cols : List String}
    (h : a ≠ "planet_mass_earth") : a ∈ colsB cols ↔ a ∈ colsA cols := by
  unfold colsB
  exact mem_ite_addCol h

theorem mem_colsB_self {cols : List String} :
    "planet_mass_earth" ∈ colsB cols ↔ hasMJ cols = true ∨ "planet_mass_earth" ∈ colsA cols := by
  unfold colsB
  exact mem_ite_addCol_self

theorem mem_colsC_of_ne {a : String} {cols : List String}
    (h : a ≠ "density_g_cm3") : a ∈ colsC cols ↔ a ∈ colsB cols := by
  unfold colsC
  exact mem_ite_addCol h

theorem mem_colsC_self {cols : List String} :
    "density_g_cm3" ∈ colsC cols ↔ hasDen cols = true ∨ "density_g_cm3" ∈ colsB cols := by
  unfold colsC
  exact mem_ite_addCol_self

theorem mem_colsD_of_ne {a : String} {cols : List String}
    (h : a ≠ "planet_type") : a ∈ colsD cols ↔ a ∈ colsC cols := by
  unfold colsD
  exact mem_ite_addCol h

theorem mem_colsD_self {cols : List String} :
    "planet_type" ∈ colsD cols ↔ hasTy cols = true ∨ "planet_type" ∈ colsC cols := by
  unfold colsD
  exact mem_ite_addCol_self

theorem mem_colsE_of_ne {a : String} {cols : List String}
    (h1 : a ≠ "hz_inner_au") (h2 : a ≠ "hz_outer_au") :
    a ∈ colsE cols ↔ a ∈ colsD cols := by
  unfold colsE
  cases hasHz cols
  · simp
  · simp [mem_addCol_of_ne h2, mem_addCol_of_ne h1]

theorem mem_colsE_inner {cols : List String} :
    "hz_inner_au" ∈ colsE cols ↔ hasHz cols = true ∨ "hz_inner_au" ∈ colsD cols := by
  unfold colsE
  cases hasHz cols
  · simp
  · simp [mem_addCol_of_ne (show ("hz_inner_au" : String) ≠ "hz_outer_au" by decide), mem_addCol]

theorem mem_colsE_outer {cols : List String} :
    "hz_outer_au" ∈ colsE cols ↔ hasHz cols = true ∨ "hz_outer_au" ∈ colsD cols := by
  unfold colsE
  cases hasHz cols
  · simp
  · simp [mem_addCol, mem_addCol_of_ne (show ("hz_outer_au" : String) ≠ "hz_inner_au" by decide)]

theorem mem_colsF_of_ne {a : String} {cols : List String}
    (h : a ≠ "in_habitable_zone") : a ∈ colsF cols ↔ a ∈ colsE cols := by
  unfold colsF
  exact mem_ite_addCol h

theorem mem_colsF_self {cols : List String} :
    "in_habitable_zone" ∈ colsF cols ↔ hasIn cols = true ∨ "in_habitable_zone" ∈ colsE cols := by
  unfold colsF
  exact mem_ite_addCol_self

theorem mem_colsG_of_ne {a : String} {cols : List String}
    (h1 : a ≠ "x_pc") (h2 : a ≠ "y_pc") (h3 : a ≠ "z_pc") :
    a ∈ colsG cols ↔ a ∈ colsF cols := by
  unfold colsG
  cases hasXyz cols
  · simp
  · simp [mem_addCol_of_ne h3, mem_addCol_of_ne h2, mem_addCol_of_ne h1]

theorem mem_colsG_x {cols : List String} :
    "x_pc" ∈ colsG cols ↔ hasXyz cols = true ∨ "x_pc" ∈ colsF cols := by
  unfold colsG
  cases hasXyz cols
  · simp
  · simp [mem_addCol, mem_addCol_of_ne (show ("x_pc" : String) ≠ "z_pc" by decide),
      mem_addCol_of_ne (show ("x_pc" : String) ≠ "y_pc" by decide)]

theorem hasRJ_iff {cols : List String} :
    hasRJ cols = true ↔ "planet_radius_jupiter" ∈ cols := by
  simp [hasRJ]

theorem hasMJ_iff {cols : List String} :
    hasMJ cols = true ↔ "planet_mass_jupiter" ∈ cols := by
  simp only [hasMJ, decide_eq_true_iff]
  exact mem_colsA_of_ne (by decide)

theorem hasDen_iff {cols : List String} :
    hasDen cols = true ↔
      "planet_mass_jupiter" ∈ cols ∧ "planet_radius_jupiter" ∈ cols := by
  simp only [hasDen, Bool.and_eq_true, decide_eq_true_iff]
  rw [mem_colsB_of_ne (by decide), mem_colsA_of_ne (by decide),
    mem_colsB_of_ne (by decide), mem_colsA_of_ne (by decide)]

theorem hasTy_iff {cols : List String} :
    hasTy cols = true ↔
      "planet_radius_jupiter" ∈ cols ∨ "planet_radius_earth" ∈ cols := by
  simp only [hasTy, decide_eq_true_iff]
  rw [mem_colsC_of_ne (by decide), mem_colsB_of_ne (by decide), mem_colsA_self, hasRJ_iff]

theorem hasHz_iff {cols : List String} :
    hasHz cols = true ↔
      "stellar_radius_solar" ∈ cols ∧ "stellar_temp_k" ∈ cols := by
  simp only [hasHz, Bool.and_eq_true, decide_eq_true_iff]
  rw [mem_colsD_of_ne (by decide), mem_colsC_of_ne (by decide),
    mem_colsB_of_ne (by decide), mem_colsA_of_ne (by decide),
    mem_colsD_of_ne (by decide), mem_colsC_of_ne (by decide),
    mem_colsB_of_ne (by decide), mem_colsA_of_ne (by decide)]

theorem hasIn_iff {cols : List String} :
    hasIn cols = true ↔
      "orbital_distance_au" ∈ cols ∧
        (("stellar_radius_solar" ∈ cols ∧ "stellar_temp_k" ∈ cols) ∨
          "hz_inner_au" ∈ cols) := by
  simp only [hasIn, Bool.and_eq_true, decide_eq_true_iff]
  rw [mem_colsE_of_ne (by decide) (by decide), mem_colsD_of_ne (by decide),
    mem_colsC_of_ne (by decide), mem_colsB_of_ne (by decide),
    mem_colsA_of_ne (by decide), mem_colsE_inner, hasHz_iff,
    mem_colsD_of_ne (by decide), mem_colsC_of_ne (by decide),
    mem_colsB_of_ne (by decide), mem_colsA_of_ne (by decide)]

theorem hasXyz_iff {cols : List String} :
    hasXyz cols = true ↔ "ra_deg" ∈ cols ∧ "dec_deg" ∈ cols := by
  simp only [hasXyz, Bool.and_eq_true, decide_eq_true_iff]
  rw [mem_colsF_of_ne (by decide), mem_colsE_of_ne (by decide) (by decide),
    mem_colsD_of_ne (by decide), mem_colsC_of_ne (by decide),
    mem_colsB_of_ne (by decide), mem_colsA_of_ne (by decide),
    mem_colsF_of_ne (by decide), mem_colsE_of_ne (by decide) (by decide),
    mem_colsD_of_ne (by decide), mem_colsC_of_ne (by decide),
    mem_colsB_of_ne (by decide), mem_colsA_of_ne (by decide)]

/-- Rows of the unified table: the NASA contribution followed by the
filtered EU contribution. -/
theorem create_unified_rows (nasa : Option NasaData) (eu : Option (List EuRawRow)) :
    (create_unified_schema nasa eu).rows =
      match eu with
      | none => nasaContribution nasa
      | some rs =>
        if rs.length > 0 then rs.foldl addEuRow (nasaContribution nasa)
        else nasaContribution nasa := rfl

/-- C1 (counterexample): with a demo-format NASA table holding two rows of
the same planet name, the unified table keeps both rows, so planet_name is
not unique and a later row with an already-accumulated name is not dropped. -/
theorem create_unified_schema_dup_counterexample :
    ((create_unified_schema (some (NasaData.demo [sampleRow, sampleRow])) none).rows.map
        Row.planet_name) = ["X", "X"] ∧
    ¬ (((create_unified_schema (some (NasaData.demo [sampleRow, sampleRow])) none).rows.map
        Row.planet_name).Nodup) := by
  constructor
  · decide
  · decide

/-- C1 (amended): only EU rows are deduplicated, by checking the resolved
name against every already-accumulated row (NASA first, then earlier EU
rows); NASA/demo rows are appended unconditionally. Hence whenever the
NASA/demo contribution has pairwise-distinct names, the whole unified
table has pairwise-distinct planet names, and the unified row count never
exceeds the sum of the input row counts. -/
theorem create_unified_schema_nodup_of_nasa_nodup
    (nasa : Option NasaData) (eu : Option (List EuRawRow))
    (h : ((nasaContribution nasa).map Row.planet_name).Nodup) :
    ((create_unified_schema nasa eu).rows.map Row.planet_name).Nodup ∧
    (create_unified_schema nasa eu).rows.length ≤
      (nasaContribution nasa).length +
        (match eu with | none => 0 | some rs => rs.length) := by
  rw [create_unified_rows]
  cases eu with
  | none => exact ⟨h, by simp⟩
  | some rs =>
    by_cases hrs : rs.length > 0
    · simp only [if_pos hrs]
      exact ⟨euFold_nodup rs _ h, euFold_length rs _⟩
    · simp only [if_neg hrs]
      exact ⟨h, by omega⟩

/-- C1 (witness): the amended theorem applied to a one-row demo table and a
one-row EU table with distinct names. -/
theorem create_unified_schema_nodup_witness :
    ((nasaContribution (some (NasaData.demo [sampleRow]))).map Row.planet_name).Nodup ∧
    (((create_unified_schema (some (NasaData.demo [sampleRow]))
        (some [sampleEuRow])).rows.map Row.planet_name).Nodup ∧
      (create_unified_schema (some (NasaData.demo [sampleRow]))
        (some [sampleEuRow])).rows.length ≤ 1 + 1) :=
  ⟨by decide,
   create_unified_schema_nodup_of_nasa_nodup
     (some (NasaData.demo [sampleRow])) (some [sampleEuRow]) (by decide)⟩

/-- C2 (counterexample): requesting three rows yields five, not three —
range(num_planets - 5) is empty and the five famous planets remain. -/
theorem generate_demo_data_three_counterexample :
    (generate_demo_data constOps constRng 3).length = 5 ∧
    (generate_demo_data constOps constRng 3).length ≠ 3 := by
  constructor
  · decide
  · decide

/-- C2 (amended): generate_demo_data returns max(n, 5) rows — exactly n
rows whenever n is at least the five hard-coded famous planets, and five
rows for smaller requests — and every returned row has a non-missing
planet_radius_jupiter value. -/
theorem generate_demo_data_count_and_radius (ops : FloatOps) (rng : DemoRng) (n : ℕ) :
    (generate_demo_data ops rng n).length = max n 5 ∧
    ∀ r ∈ generate_demo_data ops rng n, r.planet_radius_jupiter.isSome :=
  ⟨generate_demo_data_length ops rng n, generate_demo_data_radius_isSome ops rng n⟩

/-- C2 (witness): the amended theorem evaluated at a request of seven rows
and at the first random planet it generates. -/
theorem generate_demo_data_count_witness :
    (generate_demo_data constOps constRng 7).length = max 7 5 ∧
    (randomPlanet constOps constRng 0).planet_radius_jupiter.isSome :=
  ⟨(generate_demo_data_count_and_radius constOps constRng 7).1,
   (generate_demo_data_count_and_radius constOps constRng 7).2
     (randomPlanet constOps constRng 0)
     (by rw [generate_demo_data]
         exact List.mem_append_right _ (List.mem_map_of_mem _ (by decide)))⟩

/-- A nonempty demo-format NASA table passes through unification untouched
and produces the canonical columns. -/
theorem create_unified_demo (rows : List Row) (h : rows.length > 0) :
    create_unified_schema (some (NasaData.demo rows)) none =
      { cols := canonicalCols, rows := rows } := by
  rcases rows with _ | ⟨a, l⟩
  · simp at h
  · simp only [create_unified_schema, nasaContribution]
    have e1 : (if (a :: l).length > 0 then a :: l else []) = a :: l := if_pos h
    simp only [e1]
    rfl

/-- C3 (code_bug): with zero reachable network sources, collect_data in
main.py produces an empty unified table (it never invokes the demo-data
fallback), while the main function of exoplanet_data_sources.py produces
the intended fallback table of exactly 100 rows, all tagged with the
Demo Data source label. -/
theorem collect_data_no_fallback (ops : FloatOps) (rng : DemoRng) :
    (collect_data ops none none).map (fun t => t.rows.length) = some 0 ∧
    (sources_main ops rng none none).map (fun t => t.rows.length) = some 100 ∧
    (sources_main ops rng none none).map (fun t => t.rows.map Row.data_source) =
      some (List.replicate 100 "Demo Data") := by
  have h100 : (generate_demo_data ops rng 100).length = 100 := by
    rw [generate_demo_data_length]
    rfl
  have hmain : sources_main ops rng none none =
      some { cols := enrichedCols,
             rows := (generate_demo_data ops rng 100).map
               (enrichRow true true true true true true true ops) } := by
    have hfetch : fetchSuccess none none = false := rfl
    rw [sources_main]
    simp only [hfetch, Bool.false_eq_true, if_false]
    rw [create_unified_demo _ (by omega), enrich_data]
    simp only [if_neg (by rw [h100]; omega : ¬ (Table.mk canonicalCols
      (generate_demo_data ops rng 100)).rows.length = 0)]
    rw [enrichTable_canonical]
  refine ⟨rfl, ?_, ?_⟩
  · rw [hmain]
    simp only [Option.map_some']
    rw [List.length_map, h100]
  · rw [hmain]
    simp only [Option.map_some', List.map_map]
    have hds : (Row.data_source ∘ enrichRow true true true true true true true ops) =
        Row.data_source := by
      funext r
      exact enrichRowT_data_source ops r
    rw [hds]
    have := generate_demo_data_sources ops rng 100
    rw [this]
    rfl

theorem classify_some (q : ℚ) :
    classify_planet_type (some q) =
      if q < 1.5 then "Rocky (Earth-like)"
      else if q < 2.0 then "Super-Earth"
      else if q < 6.0 then "Neptune-like"
      else "Jupiter-like" := rfl

theorem classify_mem (x : Option ℚ) :
    classify_planet_type x ∈
      ["Rocky (Earth-like)", "Super-Earth", "Neptune-like", "Jupiter-like", "Unknown"] := by
  cases x with
  | none => simp [classify_planet_type]
  | some q =>
    rw [classify_some]
    split_ifs <;> simp

theorem classify_rocky_iff (q : ℚ) :
    classify_planet_type (some q) = "Rocky (Earth-like)" ↔ q < 1.5 := by
  rw [classify_some]
  split_ifs with h1 h2 h3
  · simp [h1]
  · exact ⟨fun hh => absurd hh (by decide), fun hh => absurd hh h1⟩
  · exact ⟨fun hh => absurd hh (by decide), fun hh => absurd hh h1⟩
  · exact ⟨fun hh => absurd hh (by decide), fun hh => absurd hh h1⟩

theorem classify_super_iff (q : ℚ) :
    classify_planet_type (some q) = "Super-Earth" ↔ 1.5 ≤ q ∧ q < 2.0 := by
  rw [classify_some]
  split_ifs with h1 h2 h3
  · exact ⟨fun hh => absurd hh (by decide), fun hh => by linarith [hh.1]⟩
  · exact ⟨fun _ => ⟨not_lt.mp h1, h2⟩, fun _ => rfl⟩
  · exact ⟨fun hh => absurd hh (by decide), fun hh => absurd hh.2 h2⟩
  · exact ⟨fun hh => absurd hh (by decide), fun hh => absurd hh.2 h2⟩

theorem classify_neptune_iff (q : ℚ) :
    classify_planet_type (some q) = "Neptune-like" ↔ 2.0 ≤ q ∧ q < 6.0 := by
  rw [classify_some]
  split_ifs with h1 h2 h3
  · exact ⟨fun hh => absurd hh (by decide), fun hh => by linarith [hh.1]⟩
  · exact ⟨fun hh => absurd hh (by decide), fun hh => by linarith [hh.1]⟩
  · exact ⟨fun _ => ⟨not_lt.mp h2, h3⟩, fun _ => rfl⟩
  · exact ⟨fun hh => absurd hh (by decide), fun hh => absurd hh.2 h3⟩

theorem classify_jupiter_iff (q : ℚ) :
    classify_planet_type (some q) = "Jupiter-like" ↔ 6.0 ≤ q := by
  rw [classify_some]
  split_ifs with h1 h2 h3
  · exact ⟨fun hh => absurd hh (by decide), fun hh => by linarith⟩
  · exact ⟨fun hh => absurd hh (by decide), fun hh => by linarith⟩
  · exact ⟨fun hh => absurd hh (by decide), fun hh => by linarith⟩
  · exact ⟨fun _ => not_lt.mp h3, fun _ => rfl⟩

/-- Planet-type value of the fully-enriched row: the classification of the
converted Earth radius computed in the same enrichment pass. -/
theorem enrichRowT_planet_type (ops : FloatOps) (r : Row) :
    (enrichRow true true true true true true true ops r).planet_type =
      some (classify_planet_type (r.planet_radius_jupiter.map (fun x => x * (11209 / 1000)))) := by
  simp [enrichRow, rowRadiusEarth, rowMassEarth, rowDensity, rowType, rowHz,
    rowInHz, rowXyz]

/-- Either the unified table was empty and enrich_data returned it as-is,
or the enriched rows are the mapped unified rows. -/
theorem enrich_unified_cases (ops : FloatOps) (nasa : Option NasaData)
    (eu : Option (List EuRawRow)) (t : Table)
    (ht : enrich_data ops (some (create_unified_schema nasa eu)) = some t) :
    ((create_unified_schema nasa eu).rows = [] ∧ t = create_unified_schema nasa eu) ∨
    t.rows = (create_unified_schema nasa eu).rows.map
      (enrichRow true true true true true true true ops) := by
  rw [enrich_unified_eq] at ht
  split_ifs at ht with h
  · simp only [Option.some.injEq] at ht
    exact Or.inl ⟨List.length_eq_zero.mp h, ht.symm⟩
  · simp only [Option.some.injEq] at ht
    right
    rw [← ht]

/-- C4: after enrichment every row's planet_type is one of the five
category labels Rocky (Earth-like) / Super-Earth / Neptune-like /
Jupiter-like / Unknown, assigned by inclusive-lower, exclusive-upper
threshold bands on the Earth radius: below 1.5 Rocky, 1.5 up to but not
including 2 Super-Earth (so exactly 1.5 is Super-Earth, not Rocky), 2 up
to but not including 6 Neptune-like, 6 and above Jupiter-like, and a
missing radius gives Unknown. -/
theorem classify_planet_type_spec :
    (∀ x : Option ℚ, classify_planet_type x ∈
      ["Rocky (Earth-like)", "Super-Earth", "Neptune-like", "Jupiter-like", "Unknown"]) ∧
    classify_planet_type none = "Unknown" ∧
    (∀ q : ℚ,
      (classify_planet_type (some q) = "Rocky (Earth-like)" ↔ q < 1.5) ∧
      (classify_planet_type (some q) = "Super-Earth" ↔ 1.5 ≤ q ∧ q < 2.0) ∧
      (classify_planet_type (some q) = "Neptune-like" ↔ 2.0 ≤ q ∧ q < 6.0) ∧
      (classify_planet_type (some q) = "Jupiter-like" ↔ 6.0 ≤ q)) ∧
    (∀ (ops : FloatOps) (nasa : Option NasaData) (eu : Option (List EuRawRow)) (t : Table),
      enrich_data ops (some (create_unified_schema nasa eu)) = some t →
      ∀ r ∈ t.rows, ∃ s, r.planet_type = some s ∧
        s ∈ ["Rocky (Earth-like)", "Super-Earth", "Neptune-like", "Jupiter-like", "Unknown"]) := by
  refine ⟨classify_mem, rfl,
    fun q => ⟨classify_rocky_iff q, classify_super_iff q, classify_neptune_iff q,
      classify_jupiter_iff q⟩, ?_⟩
  intro ops nasa eu t ht r hr
  rcases enrich_unified_cases ops nasa eu t ht with ⟨hempty, rfl⟩ | hrows
  · rw [hempty] at hr
    exact absurd hr (List.not_mem_nil r)
  · rw [hrows] at hr
    obtain ⟨r0, _, rfl⟩ := List.mem_map.mp hr
    exact ⟨_, enrichRowT_planet_type ops r0, classify_mem _⟩

/-- C4 (witness): the boundary values land in the claimed bands. -/
theorem classify_planet_type_witness :
    classify_planet_type (some (1.5 : ℚ)) = "Super-Earth" ∧
    classify_planet_type (some (2.0 : ℚ)) = "Neptune-like" ∧
    classify_planet_type (some (6.0 : ℚ)) = "Jupiter-like" ∧
    classify_planet_type none = "Unknown" :=
  ⟨(classify_planet_type_spec.2.2.1 1.5).2.1.mpr (by norm_num),
   (classify_planet_type_spec.2.2.1 2.0).2.2.1.mpr (by norm_num),
   (classify_planet_type_spec.2.2.1 6.0).2.2.2.mpr (by norm_num),
   classify_planet_type_spec.2.1⟩

/-- Earth-radius column of the fully-enriched row. -/
theorem enrichRowT_radius_earth (ops : FloatOps) (r : Row) :
    (enrichRow true true true true true true true ops r).planet_radius_earth =
      r.planet_radius_jupiter.map (fun x => x * (11209 / 1000)) := by
  simp [enrichRow, rowRadiusEarth, rowMassEarth, rowDensity, rowType, rowHz,
    rowInHz, rowXyz]

/-- Earth-mass column of the fully-enriched row. -/
theorem enrichRowT_mass_earth (ops : FloatOps) (r : Row) :
    (enrichRow true true true true true true true ops r).planet_mass_earth =
      r.planet_mass_jupiter.map (fun x => x * (3178 / 10)) := by
  simp [enrichRow, rowRadiusEarth, rowMassEarth, rowDensity, rowType, rowHz,
    rowInHz, rowXyz]

/-- Density column of the fully-enriched row. -/
theorem enrichRowT_density (ops : FloatOps) (r : Row) :
    (enrichRow true true true true true true true ops r).density_g_cm3 =
      densityOf ops r.planet_mass_jupiter r.planet_radius_jupiter := by
  simp [enrichRow, rowRadiusEarth, rowMassEarth, rowDensity, rowType, rowHz,
    rowInHz, rowXyz]

/-- Inner habitable-zone column of the fully-enriched row. -/
theorem enrichRowT_hz_inner (ops : FloatOps) (r : Row) :
    (enrichRow true true true true true true true ops r).hz_inner_au =
      hzInnerOf ops r.stellar_radius_solar r.stellar_temp_k := by
  simp [enrichRow, rowRadiusEarth, rowMassEarth, rowDensity, rowType, rowHz,
    rowInHz, rowXyz]

/-- Outer habitable-zone column of the fully-enriched row. -/
theorem enrichRowT_hz_outer (ops : FloatOps) (r : Row) :
    (enrichRow true true true true true true true ops r).hz_outer_au =
      hzOuterOf ops r.stellar_radius_solar r.stellar_temp_k := by
  simp [enrichRow, rowRadiusEarth, rowMassEarth, rowDensity, rowType, rowHz,
    rowInHz, rowXyz]

/-- Habitable-zone membership column of the fully-enriched row: the test is
applied to the orbital distance and the boundaries computed in the same
enrichment pass. -/
theorem enrichRowT_in_hz (ops : FloatOps) (r : Row) :
    (enrichRow true true true true true true true ops r).in_habitable_zone =
      some (inHzTest r.orbital_distance_au
        (hzInnerOf ops r.stellar_radius_solar r.stellar_temp_k)
        (hzOuterOf ops r.stellar_radius_solar r.stellar_temp_k)) := by
  simp [enrichRow, rowRadiusEarth, rowMassEarth, rowDensity, rowType, rowHz,
    rowInHz, rowXyz]

/-- Unification of a one-row demo table followed by enrichment, fully
described. -/
theorem enrich_demo_single (ops : FloatOps) (r : Row) :
    enrich_data ops (some (create_unified_schema (some (NasaData.demo [r])) none)) =
      some { cols := enrichedCols,
             rows := [enrichRow true true true true true true true ops r] } := by
  rw [create_unified_demo [r] (by simp)]
  simp only [enrich_data, List.length_singleton]
  rw [if_neg (by norm_num), enrichTable_canonical]
  simp

/-- C5: for every unified row with a non-missing planet_radius_jupiter,
enrichment sets planet_radius_earth to exactly planet_radius_jupiter times
11.209, and with a non-missing planet_mass_jupiter it sets
planet_mass_earth to exactly planet_mass_jupiter times 317.8 (exact
rational equality, hence within any floating tolerance). -/
theorem enrich_radius_mass_conversion (ops : FloatOps) (nasa : Option NasaData)
    (eu : Option (List EuRawRow)) (t : Table)
    (ht : enrich_data ops (some (create_unified_schema nasa eu)) = some t)
    (i : ℕ) (inR outR : Row)
    (hin : (create_unified_schema nasa eu).rows[i]? = some inR)
    (hout : t.rows[i]? = some outR) :
    (∀ x, inR.planet_radius_jupiter = some x →
      outR.planet_radius_earth = some (x * (11209 / 1000))) ∧
    (∀ x, inR.planet_mass_jupiter = some x →
      outR.planet_mass_earth = some (x * (3178 / 10))) := by
  rcases enrich_unified_cases ops nasa eu t ht with ⟨hempty, rfl⟩ | hrows
  · rw [hempty] at hin
    simp at hin
  · rw [hrows, List.getElem?_map, hin] at hout
    simp only [Option.map_some', Option.some.injEq] at hout
    subst hout
    constructor
    · intro x hx
      rw [enrichRowT_radius_earth, hx]
      rfl
    · intro x hx
      rw [enrichRowT_mass_earth, hx]
      rfl

/-- C5 (witness): the conversion theorem applied to a one-row demo table
whose radius and mass are both 1. -/
theorem enrich_radius_mass_conversion_witness :
    sampleRow.planet_radius_jupiter = some 1 ∧
    (enrichRow true true true true true true true constOps sampleRow).planet_radius_earth =
      some (1 * (11209 / 1000)) ∧
    (enrichRow true true true true true true true constOps sampleRow).planet_mass_earth =
      some (1 * (3178 / 10)) := by
  have h := enrich_radius_mass_conversion constOps (some (NasaData.demo [sampleRow])) none
    { cols := enrichedCols,
      rows := [enrichRow true true true true true true true constOps sampleRow] }
    (enrich_demo_single constOps sampleRow) 0 sampleRow
    (enrichRow true true true true true true true constOps sampleRow)
    (by rw [create_unified_demo [sampleRow] (by simp)]
        rfl) rfl
  exact ⟨rfl, h.1 1 rfl, h.2 1 rfl⟩

/-- The density value is present exactly for positive present mass and
radius (the computation is total: missing inputs give a missing result,
never an error). -/
theorem densityOf_isSome (ops : FloatOps) (mo ro : Option ℚ) :
    (densityOf ops mo ro).isSome = true ↔
      ∃ m r, mo = some m ∧ ro = some r ∧ 0 < m ∧ 0 < r := by
  cases mo with
  | none => simp [densityOf]
  | some m =>
    cases ro with
    | none => simp [densityOf]
    | some r =>
      simp only [densityOf]
      split_ifs with h
      · simp only [Option.isSome_some, true_iff, Option.some.injEq]
        exact ⟨m, r, rfl, rfl, h.1, h.2⟩
      · simp only [Option.isSome_none, Bool.false_eq_true, false_iff]
        rintro ⟨m1, r1, hm, hr, h1, h2⟩
        cases hm
        cases hr
        exact h ⟨h1, h2⟩

/-- C6: after enrichment of a unified table, a row's density_g_cm3 equals
the source's numpy.where expression on the row's raw Jupiter mass and
radius, which is non-missing exactly when both are present and strictly
positive; all other cases give a missing value and enrichment never
raises. -/
theorem enrich_density_iff (ops : FloatOps) (nasa : Option NasaData)
    (eu : Option (List EuRawRow)) (t : Table)
    (ht : enrich_data ops (some (create_unified_schema nasa eu)) = some t)
    (i : ℕ) (inR outR : Row)
    (hin : (create_unified_schema nasa eu).rows[i]? = some inR)
    (hout : t.rows[i]? = some outR) :
    outR.density_g_cm3 = densityOf ops inR.planet_mass_jupiter inR.planet_radius_jupiter ∧
    ((outR.density_g_cm3.isSome = true) ↔
      ∃ m r, inR.planet_mass_jupiter = some m ∧ inR.planet_radius_jupiter = some r ∧
        0 < m ∧ 0 < r) := by
  rcases enrich_unified_cases ops nasa eu t ht with ⟨hempty, rfl⟩ | hrows
  · rw [hempty] at hin
    simp at hin
  · rw [hrows, List.getElem?_map, hin] at hout
    simp only [Option.map_some', Option.some.injEq] at hout
    subst hout
    refine ⟨enrichRowT_density ops inR, ?_⟩
    rw [enrichRowT_density]
    exact densityOf_isSome ops _ _

/-- C6 (witness): the density theorem applied to a one-row demo table with
unit mass and radius; the density is present there. -/
theorem enrich_density_iff_witness :
    (enrichRow true true true true true true true constOps sampleRow).density_g_cm3 =
      densityOf constOps (some 1) (some 1) ∧
    ((enrichRow true true true true true true true constOps
        sampleRow).density_g_cm3.isSome = true) := by
  have h := enrich_density_iff constOps (some (NasaData.demo [sampleRow])) none
    { cols := enrichedCols,
      rows := [enrichRow true true true true true true true constOps sampleRow] }
    (enrich_demo_single constOps sampleRow) 0 sampleRow
    (enrichRow true true true true true true true constOps sampleRow)
    (by rw [create_unified_demo [sampleRow] (by simp)]
        rfl) rfl
  exact ⟨h.1, h.2.mpr ⟨1, 1, rfl, rfl, by norm_num, by norm_num⟩⟩

/-- The habitable-zone test is true exactly when all three operands are
present and the distance lies between the boundaries; any missing operand
gives false. -/
theorem inHzTest_iff (d lo hi : Option ℚ) :
    inHzTest d lo hi = true ↔
      ∃ dv lov hiv, d = some dv ∧ lo = some lov ∧ hi = some hiv ∧
        lov ≤ dv ∧ dv ≤ hiv := by
  cases d with
  | none => simp [inHzTest]
  | some dv =>
    cases lo with
    | none => simp [inHzTest]
    | some lov =>
      cases hi with
      | none => simp [inHzTest]
      | some hiv =>
        simp only [inHzTest, Bool.and_eq_true, decide_eq_true_iff, Option.some.injEq]
        constructor
        · rintro ⟨h1, h2⟩
          exact ⟨dv, lov, hiv, rfl, rfl, rfl, h1, h2⟩
        · rintro ⟨dv1, lov1, hiv1, rfl, rfl, rfl, h1, h2⟩
          exact ⟨h1, h2⟩

/-- C7: after enrichment of a unified table, the habitable-zone boundary
columns are 0.95 sqrt L and 1.37 sqrt L with L the stellar luminosity
computed from stellar radius and temperature (missing when either stellar
input is missing), and in_habitable_zone is true exactly when the orbital
distance and both boundaries are present with the distance inside the
closed interval; any missing input gives false. -/
theorem enrich_habitable_zone_spec (ops : FloatOps) (nasa : Option NasaData)
    (eu : Option (List EuRawRow)) (t : Table)
    (ht : enrich_data ops (some (create_unified_schema nasa eu)) = some t)
    (i : ℕ) (inR outR : Row)
    (hin : (create_unified_schema nasa eu).rows[i]? = some inR)
    (hout : t.rows[i]? = some outR) :
    outR.hz_inner_au = hzInnerOf ops inR.stellar_radius_solar inR.stellar_temp_k ∧
    outR.hz_outer_au = hzOuterOf ops inR.stellar_radius_solar inR.stellar_temp_k ∧
    (∀ a b : ℚ, hzInnerOf ops (some a) (some b) =
      some ((95 / 100) * ops.sqrt (a ^ 2 * (b / 5778) ^ 4))) ∧
    (∀ a b : ℚ, hzOuterOf ops (some a) (some b) =
      some ((137 / 100) * ops.sqrt (a ^ 2 * (b / 5778) ^ 4))) ∧
    outR.in_habitable_zone = some (inHzTest inR.orbital_distance_au
      outR.hz_inner_au outR.hz_outer_au) ∧
    (∀ d lo hi : Option ℚ, inHzTest d lo hi = true ↔
      ∃ dv lov hiv, d = some dv ∧ lo = some lov ∧ hi = some hiv ∧
        lov ≤ dv ∧ dv ≤ hiv) := by
  rcases enrich_unified_cases ops nasa eu t ht with ⟨hempty, rfl⟩ | hrows
  · rw [hempty] at hin
    simp at hin
  · rw [hrows, List.getElem?_map, hin] at hout
    simp only [Option.map_some', Option.some.injEq] at hout
    subst hout
    refine ⟨enrichRowT_hz_inner ops inR, enrichRowT_hz_outer ops inR,
      fun a b => rfl, fun a b => rfl, ?_, inHzTest_iff⟩
    rw [enrichRowT_hz_inner, enrichRowT_hz_outer, enrichRowT_in_hz]

/-- C7 (witness): the habitable-zone theorem applied to a one-row demo
table with Sun-like stellar inputs. -/
theorem enrich_habitable_zone_witness :
    (enrichRow true true true true true true true constOps sampleRow).hz_inner_au =
      hzInnerOf constOps (some 1) (some 5778) ∧
    hzInnerOf constOps (some 1) (some 5778) =
      some ((95 / 100) * constOps.sqrt ((1 : ℚ) ^ 2 * ((5778 : ℚ) / 5778) ^ 4)) ∧
    (enrichRow true true true true true true true constOps sampleRow).in_habitable_zone =
      some (inHzTest (some 1)
        (enrichRow true true true true true true true constOps sampleRow).hz_inner_au
        (enrichRow true true true true true true true constOps sampleRow).hz_outer_au) := by
  have h := enrich_habitable_zone_spec constOps (some (NasaData.demo [sampleRow])) none
    { cols := enrichedCols,
      rows := [enrichRow true true true true true true true constOps sampleRow] }
    (enrich_demo_single constOps sampleRow) 0 sampleRow
    (enrichRow true true true true true true true constOps sampleRow)
    (by rw [create_unified_demo [sampleRow] (by simp)]
        rfl) rfl
  exact ⟨h.1, h.2.2.1 1 5778, h.2.2.2.2.1⟩

/-- C8: enrichment is deterministic (a pure function of the table: equal
inputs give equal outputs) and idempotent on every unified table — running
enrich_data twice yields exactly the output of running it once, derived
columns included. -/
theorem enrich_data_idempotent (ops : FloatOps) (nasa : Option NasaData)
    (eu : Option (List EuRawRow)) :
    enrich_data ops (enrich_data ops (some (create_unified_schema nasa eu))) =
      enrich_data ops (some (create_unified_schema nasa eu)) ∧
    (∀ t1 t2 : Option Table, t1 = t2 → enrich_data ops t1 = enrich_data ops t2) := by
  refine ⟨?_, fun t1 t2 h => by rw [h]⟩
  rw [enrich_unified_eq]
  split_ifs with h
  · rw [enrich_unified_eq, if_pos h]
  · have hlen : ¬ ((create_unified_schema nasa eu).rows.map
        (enrichRow true true true true true true true ops)).length = 0 := by
      rw [List.length_map]
      exact h
    simp only [enrich_data]
    rw [if_neg hlen, enrichTable_enriched]
    have hmap : ((create_unified_schema nasa eu).rows.map
          (enrichRow true true true true true true true ops)).map
        (enrichRow true true true true true true true ops) =
        (create_unified_schema nasa eu).rows.map
          (enrichRow true true true true true true true ops) := by
      rw [List.map_map]
      exact List.map_congr_left (fun r _ => enrichRow_idem ops r)
    rw [hmap]

/-- C8 (witness): idempotence evaluated on a one-row demo unification, and
determinism evaluated at the None table. -/
theorem enrich_data_idempotent_witness :
    enrich_data constOps (enrich_data constOps
      (some (create_unified_schema (some (NasaData.demo [sampleRow])) none))) =
      enrich_data constOps (some (create_unified_schema (some (NasaData.demo [sampleRow])) none)) ∧
    enrich_data constOps none = enrich_data constOps none :=
  ⟨(enrich_data_idempotent constOps (some (NasaData.demo [sampleRow])) none).1,
   (enrich_data_idempotent constOps (some (NasaData.demo [sampleRow])) none).2 none none rfl⟩

theorem replaceAux_nil (fuel : ℕ) : replaceCsvJsonAux fuel [] = [] := by
  cases fuel <;> rfl

theorem replaceAux_csv (f : ℕ) :
    replaceCsvJsonAux (f + 1) ['.', 'c', 's', 'v'] = ['.', 'j', 's', 'o', 'n'] := by
  simp only [replaceCsvJsonAux]
  rw [if_pos (by decide)]
  simp [replaceAux_nil]

/-- On a name without dots followed by the ".csv" extension, the
replacement rewrites exactly the extension. -/
theorem replaceAux_no_dot : ∀ (l : List Char) (fuel : ℕ),
    (∀ c ∈ l, c ≠ '.') → (l ++ ['.', 'c', 's', 'v']).length ≤ fuel →
    replaceCsvJsonAux fuel (l ++ ['.', 'c', 's', 'v']) = l ++ ['.', 'j', 's', 'o', 'n']
  | [], fuel, _, hf => by
    rcases fuel with _ | f
    · simp at hf
    · simpa using replaceAux_csv f
  | c :: l, fuel, hc, hf => by
    rcases fuel with _ | f
    · simp at hf
    · have hcdot : ¬ (c = '.' ∧ ((l ++ ['.', 'c', 's', 'v']).take 3 = ['c', 's', 'v'])) :=
        fun hand => hc c (List.mem_cons_self c l) hand.1
      show replaceCsvJsonAux (f + 1) (c :: (l ++ ['.', 'c', 's', 'v'])) = _
      simp only [replaceCsvJsonAux]
      rw [if_neg hcdot,
        replaceAux_no_dot l f (fun x hx => hc x (List.mem_cons_of_mem c hx))
          (by simp only [List.length_append, List.length_cons] at hf ⊢; omega)]
      rfl

/-- For a base name without dots, the JSON path is the CSV path with just
the extension changed. -/
theorem jsonFilename_suffix (base : String) (h : ∀ c ∈ base.data, c ≠ '.') :
    jsonFilename (base ++ ".csv") = base ++ ".json" := by
  have hdata : (base ++ ".csv").data = base.data ++ ['.', 'c', 's', 'v'] :=
    String.data_append base ".csv"
  have hjson : (base ++ ".json").data = base.data ++ ['.', 'j', 's', 'o', 'n'] :=
    String.data_append base ".json"
  unfold jsonFilename
  rw [hdata, replaceAux_no_dot base.data _ h (le_refl _), ← hjson]

/-- A filename ending in ".csv" differs from the same name ending in
".json". -/
theorem csv_json_ne (base : String) : base ++ ".csv" ≠ base ++ ".json" := by
  intro heq
  have h2 := congrArg (fun s : String => s.data.length) heq
  simp only [String.data_append, List.length_append] at h2
  have h4 : (".csv" : String).data.length = 4 := rfl
  have h5 : (".json" : String).data.length = 5 := rfl
  rw [h4, h5] at h2
  omega

/-- C9 (counterexample): for an output filename without a ".csv"
occurrence, the replacement leaves the path unchanged and both files are
written to the same path, not to two distinct paths. -/
theorem save_data_same_path_counterexample :
    (save_data (some emptyTable) "output.txt").map SavedFile.path =
      ["output.txt", "output.txt"] ∧
    ¬ ((save_data (some emptyTable) "output.txt").map SavedFile.path).Nodup := by
  constructor
  · decide
  · decide

/-- C9 (amended): for every non-None table, save_data always writes the
CSV file and the JSON file together, both serializing the same in-memory
table; the JSON path is the CSV path with every occurrence of ".csv"
replaced by ".json", which differs from the CSV path only by extension
whenever the filename is a dot-free base followed by ".csv" (as for the
default filename), but coincides with the CSV path when ".csv" does not
occur. -/
theorem save_data_paths (t : Table) (filename : String) :
    save_data (some t) filename =
      [{ path := filename, format := FileFormat.csv, content := t },
       { path := jsonFilename filename, format := FileFormat.json, content := t }] ∧
    save_data none filename = [] ∧
    jsonFilename "exoplanet_combined_data.csv" = "exoplanet_combined_data.json" ∧
    (∀ base : String, (∀ c ∈ base.data, c ≠ '.') →
      jsonFilename (base ++ ".csv") = base ++ ".json" ∧
        base ++ ".csv" ≠ base ++ ".json") :=
  ⟨rfl, rfl, by decide,
   fun base h => ⟨jsonFilename_suffix base h, csv_json_ne base⟩⟩

/-- C9 (witness): the amended theorem evaluated at the default output
filename and at a concrete dot-free base. -/
theorem save_data_paths_witness :
    save_data (some emptyTable) "exoplanet_combined_data.csv" =
      [{ path := "exoplanet_combined_data.csv", format := FileFormat.csv,
         content := emptyTable },
       { path := jsonFilename "exoplanet_combined_data.csv", format := FileFormat.json,
         content := emptyTable }] ∧
    jsonFilename "exoplanet_combined_data.csv" = "exoplanet_combined_data.json" ∧
    jsonFilename ("data" ++ ".csv") = "data" ++ ".json" :=
  ⟨(save_data_paths emptyTable "exoplanet_combined_data.csv").1,
   (save_data_paths emptyTable "x").2.2.1,
   ((save_data_paths emptyTable "x").2.2.2 "data" (by decide)).1⟩

/-- C10: enrich_data returns a None table as None and an empty table
unchanged (no derived column added, no error), and on any table each
derived column is present in the output exactly when its required input
columns were present (or it was already present), mirroring the source's
sequential column-presence guards. -/
theorem enrich_data_guards (ops : FloatOps) :
    enrich_data ops none = none ∧
    (∀ t : Table, t.rows = [] → enrich_data ops (some t) = some t) ∧
    (∀ t : Table,
      ("planet_radius_earth" ∈ (enrichTable ops t).cols ↔
        "planet_radius_jupiter" ∈ t.cols ∨ "planet_radius_earth" ∈ t.cols) ∧
      ("planet_mass_earth" ∈ (enrichTable ops t).cols ↔
        "planet_mass_jupiter" ∈ t.cols ∨ "planet_mass_earth" ∈ t.cols) ∧
      ("density_g_cm3" ∈ (enrichTable ops t).cols ↔
        ("planet_mass_jupiter" ∈ t.cols ∧ "planet_radius_jupiter" ∈ t.cols) ∨
          "density_g_cm3" ∈ t.cols) ∧
      ("planet_type" ∈ (enrichTable ops t).cols ↔
        ("planet_radius_jupiter" ∈ t.cols ∨ "planet_radius_earth" ∈ t.cols) ∨
          "planet_type" ∈ t.cols) ∧
      ("hz_inner_au" ∈ (enrichTable ops t).cols ↔
        ("stellar_radius_solar" ∈ t.cols ∧ "stellar_temp_k" ∈ t.cols) ∨
          "hz_inner_au" ∈ t.cols) ∧
      ("in_habitable_zone" ∈ (enrichTable ops t).cols ↔
        ("orbital_distance_au" ∈ t.cols ∧
          (("stellar_radius_solar" ∈ t.cols ∧ "stellar_temp_k" ∈ t.cols) ∨
            "hz_inner_au" ∈ t.cols)) ∨ "in_habitable_zone" ∈ t.cols) ∧
      ("x_pc" ∈ (enrichTable ops t).cols ↔
        ("ra_deg" ∈ t.cols ∧ "dec_deg" ∈ t.cols) ∨ "x_pc" ∈ t.cols)) := by
  have hcols : ∀ t : Table, (enrichTable ops t).cols = colsG t.cols := fun t => rfl
  refine ⟨rfl, fun t h => by simp [enrich_data, h], fun t => ?_⟩
  refine ⟨?_, ?_, ?_, ?_, ?_, ?_, ?_⟩
  · rw [hcols,mem_colsG_of_ne (by decide) (by decide) (by decide),
      mem_colsF_of_ne (by decide), mem_colsE_of_ne (by decide) (by decide),
      mem_colsD_of_ne (by decide), mem_colsC_of_ne (by decide),
      mem_colsB_of_ne (by decide), mem_colsA_self, hasRJ_iff]
  · rw [hcols,mem_colsG_of_ne (by decide) (by decide) (by decide),
      mem_colsF_of_ne (by decide), mem_colsE_of_ne (by decide) (by decide),
      mem_colsD_of_ne (by decide), mem_colsC_of_ne (by decide),
      mem_colsB_self, hasMJ_iff, mem_colsA_of_ne (by decide)]
  · rw [hcols,mem_colsG_of_ne (by decide) (by decide) (by decide),
      mem_colsF_of_ne (by decide), mem_colsE_of_ne (by decide) (by decide),
      mem_colsD_of_ne (by decide), mem_colsC_self, hasDen_iff,
      mem_colsB_of_ne (by decide), mem_colsA_of_ne (by decide)]
  · rw [hcols,mem_colsG_of_ne (by decide) (by decide) (by decide),
      mem_colsF_of_ne (by decide), mem_colsE_of_ne (by decide) (by decide),
      mem_colsD_self, hasTy_iff, mem_colsC_of_ne (by decide),
      mem_colsB_of_ne (by decide), mem_colsA_of_ne (by decide)]
  · rw [hcols,mem_colsG_of_ne (by decide) (by decide) (by decide),
      mem_colsF_of_ne (by decide), mem_colsE_inner, hasHz_iff,
      mem_colsD_of_ne (by decide), mem_colsC_of_ne (by decide),
      mem_colsB_of_ne (by decide), mem_colsA_of_ne (by decide)]
  · rw [hcols,mem_colsG_of_ne (by decide) (by decide) (by decide),
      mem_colsF_self, hasIn_iff, mem_colsE_of_ne (by decide) (by decide),
      mem_colsD_of_ne (by decide), mem_colsC_of_ne (by decide),
      mem_colsB_of_ne (by decide), mem_colsA_of_ne (by decide)]
  · rw [hcols,mem_colsG_x, hasXyz_iff, mem_colsF_of_ne (by decide),
      mem_colsE_of_ne (by decide) (by decide), mem_colsD_of_ne (by decide),
      mem_colsC_of_ne (by decide), mem_colsB_of_ne (by decide),
      mem_colsA_of_ne (by decide)]

/-- C10 (witness): the guard theorem evaluated at the None table and the
empty table. -/
theorem enrich_data_guards_witness :
    enrich_data constOps none = none ∧
    enrich_data constOps (some emptyTable) = some emptyTable :=
  ⟨(enrich_data_guards constOps).1, (enrich_data_guards constOps).2.1 emptyTable rfl⟩
